import Mathlib

/-!
Shallow embedding of the `python-email-api` service: the environment-driven
SMTP configuration (`config/email_config.py`), the request model with its
field validators (`models/email_request.py`), the transmitter
(`services/email_service.py`) and the HTTP handler (`main.py`), together
with theorems settling the specification claims about them.

Python strings are modelled as Lean `String`/`List Char` restricted to the
ASCII behaviour of `str.strip`, `str.lower` and `int(...)`; unicode
whitespace and non-ASCII digits are outside the model.
-/

/-- The ASCII whitespace characters recognised by Python `str.strip()`:
space, tab, newline, carriage return, vertical tab, form feed. -/
def pyIsSpace (c : Char) : Bool :=
  c = ' ' || c = '\t' || c = '\n' || c = '\r' || c = '\x0b' || c = '\x0c'

/-- Python `str.strip()` on the character list: drop leading whitespace,
then drop trailing whitespace. -/
def pyStripL (cs : List Char) : List Char :=
  ((cs.dropWhile pyIsSpace).reverse.dropWhile pyIsSpace).reverse

/-- Python `str.strip()`. -/
def pyStrip (s : String) : String :=
  String.mk (pyStripL s.toList)

/-- ASCII decimal digit test. -/
def isDigitChar (c : Char) : Bool :=
  '0' ≤ c && c ≤ '9'

/-- Tail of a Python integer-literal digit run: digits, with single
underscores allowed between digits (as in `int("5_87")`). -/
def pyDigitsTail : List Char → Bool
  | [] => true
  | '_' :: c :: rest => isDigitChar c && pyDigitsTail rest
  | c :: rest => isDigitChar c && pyDigitsTail rest

/-- A valid Python integer-literal digit run: nonempty, starts with a digit,
single underscores only between digits. -/
def pyDigitsOk : List Char → Bool
  | [] => false
  | c :: rest => isDigitChar c && pyDigitsTail rest

/-- Numeric value of a digit run, ignoring grouping underscores. -/
def digitsToNat (ds : List Char) : Nat :=
  (ds.filter fun c => c ≠ '_').foldl (fun n c => 10 * n + (c.toNat - '0'.toNat)) 0

/-- Python `int(s)` for decimal strings: strip surrounding whitespace,
optional sign, digit run; `none` models the `ValueError` raised on any
other input (e.g. `int("abc")`). -/
def pyParseInt (s : String) : Option Int :=
  let cs := pyStripL s.toList
  match cs with
  | '-' :: t => if pyDigitsOk t then some (-(digitsToNat t : Int)) else none
  | '+' :: t => if pyDigitsOk t then some ((digitsToNat t : Int)) else none
  | t => if pyDigitsOk t then some ((digitsToNat t : Int)) else none

/-- Python `str.lower()` (ASCII). -/
def pyLower (s : String) : String :=
  String.mk (s.toList.map Char.toLower)

/-- The attributes of `EmailConfig` (`config/email_config.py`): `host`,
`username`, `password` come from `os.getenv` and are `Option String`
(`none` models an unset environment variable); `port` is the already
`int(...)`-parsed port; `skip_sending` is the bypass flag. -/
structure EmailConfig where
  host : Option String
  port : Int
  username : Option String
  password : Option String
  skip_sending : Bool
  deriving DecidableEq

/-- The Python test `not v or v.strip() == ""` applied to an optional
string: `None`, the empty string, and whitespace-only strings are blank. -/
def isBlankOpt : Option String → Bool
  | none => true
  | some s => s = "" || pyStrip s = ""

/-- The `missing_fields` list built by `EmailConfig.__init__`: the names of
the required settings among host/username/password that are absent or
blank, in declaration order. -/
def missingFields (host username password : Option String) : List String :=
  (if isBlankOpt host then ["SMTP_HOST"] else []) ++
    (if isBlankOpt username then ["SMTP_USERNAME"] else []) ++
      (if isBlankOpt password then ["SMTP_PASSWORD"] else [])

/-- `EmailConfig.__init__` from the raw environment values (each `none`
when the variable is unset). `int(os.getenv("SMTP_PORT", "587"))` raises
`ValueError` on a non-integer string, which aborts construction before the
credential check; a nonempty `missing_fields` list then raises listing
every missing field. -/
def mkEmailConfig (smtpHost smtpPort smtpUsername smtpPassword skipSending : Option String) :
    Except String EmailConfig :=
  match pyParseInt (smtpPort.getD "587") with
  | none => .error ("invalid literal for int() with base 10: " ++ smtpPort.getD "587")
  | some port =>
    let skip := pyLower (skipSending.getD "false") == "true"
    let missing := missingFields smtpHost smtpUsername smtpPassword
    if missing = [] then
      .ok ⟨smtpHost, port, smtpUsername, smtpPassword, skip⟩
    else
      .error ("Missing required SMTP configuration: " ++ String.intercalate ", " missing)

/-- The dict returned by `EmailConfig.validate_configuration`. The
`missing_config`, `smtp_host` and `smtp_port` keys are present only on
some branches, modelled with an outer `Option`. -/
structure HealthResult where
  status : String
  message : String
  smtp_configured : Bool
  missing_config : Option (List String)
  smtp_host : Option (Option String)
  smtp_port : Option Int
  deriving DecidableEq

/-- The `missing_config` list built inside `validate_configuration`:
host/username/password blank checks, then the port check
(`not isinstance(self.port, int) or self.port <= 0`; the embedded port is
always an `Int`, so the `isinstance` disjunct is identically false). -/
def healthMissing (cfg : EmailConfig) : List String :=
  (if isBlankOpt cfg.host then ["SMTP_HOST"] else []) ++
    (if isBlankOpt cfg.username then ["SMTP_USERNAME"] else []) ++
      (if isBlankOpt cfg.password then ["SMTP_PASSWORD"] else []) ++
        (if cfg.port ≤ 0 then ["SMTP_PORT"] else [])

/-- `EmailConfig.validate_configuration`. The Python `try`/`except`
wrapper converts an exception from the body into an unhealthy result, but
no statement of the body can raise, so the embedding is the body itself. -/
def validate_configuration (cfg : EmailConfig) : HealthResult :=
  if cfg.skip_sending then
    ⟨"healthy", "Email sending is disabled (development mode)", false, none, none, none⟩
  else
    let missing := healthMissing cfg
    if missing = [] then
      ⟨"healthy", "SMTP configuration is valid", true, none, some cfg.host, some cfg.port⟩
    else
      ⟨"unhealthy",
        "Missing or invalid SMTP configuration: " ++ String.intercalate ", " missing,
        false, some missing, none, none⟩

/-- The pydantic model `EmailRequest` (`models/email_request.py`) after
successful validation: `subject` and `plain_body` hold the stripped
values returned by their validators. -/
structure EmailRequest where
  to_list : List String
  from_email : String
  subject : String
  plain_body : String
  html_body : Option String
  deriving DecidableEq

/-- Modelled from the spec: the `EmailStr` address check on `to` entries
and `from_email` is implemented by a third-party validation library whose
code is not part of this repository; the spec describes it as standard
address-shape validation — a local part, an "@", and a domain containing
at least one dot (list-of-characters form). -/
def emailValidL (cs : List Char) : Bool :=
  cs.count '@' == 1 &&
    !(cs.takeWhile fun c => c != '@').isEmpty &&
      ((cs.dropWhile fun c => c != '@').tail.contains '.')

/-- Modelled from the spec: address-shape validity of a string. -/
def emailValid (s : String) : Bool :=
  emailValidL s.toList

/-- `EmailRequest.validate_to_list`. -/
def validate_to_list (v : List String) : Except String (List String) :=
  if v = [] then .error "At least one recipient is required" else .ok v

/-- `EmailRequest.validate_subject`: `if not v or len(v.strip()) == 0`
fails, else the stripped value is stored. -/
def validate_subject (v : String) : Except String String :=
  if v = "" ∨ pyStrip v = "" then .error "Subject cannot be empty" else .ok (pyStrip v)

/-- `EmailRequest.validate_plain_body`. -/
def validate_plain_body (v : String) : Except String String :=
  if v = "" ∨ pyStrip v = "" then .error "Plain body cannot be empty" else .ok (pyStrip v)

/-- Errors pydantic collects for the `to` field: per-item `EmailStr`
failures; the `validate_to_list` after-validator runs only when every
item passed. -/
def toFieldErrors (v : List String) : List String :=
  let itemErrors := v.filterMap fun a =>
    if emailValid a then none else some "value is not a valid email address"
  if itemErrors = [] then
    match validate_to_list v with
    | .error m => [m]
    | .ok _ => []
  else itemErrors

/-- Errors pydantic collects for the `from_email` field. -/
def fromFieldErrors (v : String) : List String :=
  if emailValid v then [] else ["value is not a valid email address"]

/-- Error list of a string-field validator result. -/
def exceptErrors (r : Except String String) : List String :=
  match r with
  | .error m => [m]
  | .ok _ => []

/-- All validation errors pydantic collects for one payload, in field
declaration order. -/
def requestErrors (to_list : List String) (from_email subject plain_body : String) : List String :=
  toFieldErrors to_list ++ fromFieldErrors from_email ++
    exceptErrors (validate_subject subject) ++ exceptErrors (validate_plain_body plain_body)

/-- Construction of an `EmailRequest` from a payload: pydantic validates
every field, aggregates the errors, and only a payload with no errors
yields a model instance (with `subject`/`plain_body` stripped). -/
def mkEmailRequest (to_list : List String) (from_email subject plain_body : String)
    (html_body : Option String) : Except (List String) EmailRequest :=
  let errs := requestErrors to_list from_email subject plain_body
  if errs = [] then
    .ok ⟨to_list, from_email, pyStrip subject, pyStrip plain_body, html_body⟩
  else
    .error errs

/-- The composed `MIMEMultipart("alternative")` message: the three headers
set by `send_email` and the attached parts as (subtype, payload) pairs. -/
structure MimeMessage where
  from_header : String
  to_header : String
  subject_header : String
  parts : List (String × String)
  deriving DecidableEq

/-- Message composition in `EmailService.send_email`: `From`, `To`
(comma-joined recipients), `Subject`, a plain part always, and an html
part only when `if email_data.html_body:` is truthy — i.e. `html_body`
is neither `None` nor the empty string. -/
def composeMessage (r : EmailRequest) : MimeMessage :=
  ⟨r.from_email, String.intercalate ", " r.to_list, r.subject,
    [("plain", r.plain_body)] ++
      (match r.html_body with
       | some h => if h = "" then [] else [("html", h)]
       | none => [])⟩

/-- Network actions of one `send_email` call, in order. -/
inductive NetEvent where
  | connect (host : Option String) (port : Int)
  | starttls
  | login (username password : Option String)
  | sendMessage (msg : MimeMessage)
  deriving DecidableEq

/-- Log records `send_email` can emit. -/
inductive LogEvent where
  | skippedDevMode
  | sentTo (to_list : List String)
  | sendFailed (msg : String)
  deriving DecidableEq

/-- Python exceptions distinguished by the handler in `main.py`:
`ValueError` (mapped to 400) and the smtplib/socket failures raised by
the network stages, which are not `ValueError` (mapped to 500). -/
inductive PyExc where
  | valueError (msg : String)
  | smtpError (msg : String)
  deriving DecidableEq

/-- Oracle for the four network stages of one transmission attempt:
`some m` means that stage, when reached, raises with message `m`. -/
structure SmtpWorld where
  connectFail : Option String
  starttlsFail : Option String
  loginFail : Option String
  sendFail : Option String
  deriving DecidableEq

/-- Outcome of one `send_email` call: the returned value or the re-raised
exception, the network actions performed, and the log records emitted. -/
structure SendResult where
  outcome : Except PyExc Bool
  net : List NetEvent
  logs : List LogEvent

/-- The message of the first network stage that fails, in the order the
stages run: connect, starttls, login, send. -/
def firstFailure (w : SmtpWorld) : Option String :=
  match w.connectFail with
  | some m => some m
  | none =>
    match w.starttlsFail with
    | some m => some m
    | none =>
      match w.loginFail with
      | some m => some m
      | none => w.sendFail

/-- `EmailService.send_email`: bypass returns `True` with no network
activity; otherwise compose the message, then connect, starttls, login
and send in order, stopping at the first failing stage, logging the
failure and re-raising the caught exception unmodified (bare `raise`). -/
def sendEmail (cfg : EmailConfig) (email_data : EmailRequest) (w : SmtpWorld) : SendResult :=
  if cfg.skip_sending then
    ⟨.ok true, [], [.skippedDevMode]⟩
  else
    let msg := composeMessage email_data
    match w.connectFail with
    | some m =>
      ⟨.error (.smtpError m), [.connect cfg.host cfg.port],
        [.sendFailed ("Failed to send email: " ++ m)]⟩
    | none =>
      match w.starttlsFail with
      | some m =>
        ⟨.error (.smtpError m), [.connect cfg.host cfg.port, .starttls],
          [.sendFailed ("Failed to send email: " ++ m)]⟩
      | none =>
        match w.loginFail with
        | some m =>
          ⟨.error (.smtpError m),
            [.connect cfg.host cfg.port, .starttls, .login cfg.username cfg.password],
            [.sendFailed ("Failed to send email: " ++ m)]⟩
        | none =>
          match w.sendFail with
          | some m =>
            ⟨.error (.smtpError m),
              [.connect cfg.host cfg.port, .starttls, .login cfg.username cfg.password,
                .sendMessage msg],
              [.sendFailed ("Failed to send email: " ++ m)]⟩
          | none =>
            ⟨.ok true,
              [.connect cfg.host cfg.port, .starttls, .login cfg.username cfg.password,
                .sendMessage msg],
              [.sentTo email_data.to_list]⟩

/-- Response bodies the boundary can produce: the success JSON object
(field/value pairs), an `HTTPException` detail string, or the 422
validation-error list assembled by the framework. -/
inductive ResponseBody where
  | jsonObject (fields : List (String × String))
  | detail (s : String)
  | validationErrors (errs : List String)
  deriving DecidableEq

/-- An HTTP response: status code and body. -/
structure HttpResponse where
  statusCode : Nat
  body : ResponseBody
  deriving DecidableEq

/-- The `POST /send-email` pipeline of `main.py`: the framework validates
the payload into an `EmailRequest` (failures become 422 with all
collected errors), then the endpoint calls `send_email`, mapping
`ValueError` to 400 with its message and any other exception to 500 with
the generic detail. -/
def send_email_endpoint (cfg : EmailConfig) (w : SmtpWorld) (to_list : List String)
    (from_email subject plain_body : String) (html_body : Option String) : HttpResponse :=
  match mkEmailRequest to_list from_email subject plain_body html_body with
  | .error errs => ⟨422, .validationErrors errs⟩
  | .ok email_data =>
    match (sendEmail cfg email_data w).outcome with
    | .ok _ =>
      ⟨200, .jsonObject [("message", "Email sent successfully"), ("status", "success")]⟩
    | .error (.valueError m) => ⟨400, .detail m⟩
    | .error (.smtpError _) => ⟨500, .detail "Internal server error"⟩

/-! ## Helper lemmas about `dropWhile`-based stripping -/

/-- The first element surviving `dropWhile p` does not satisfy `p`. -/
theorem dropWhile_head_not {α : Type} (p : α → Bool) (l : List α) :
    ∀ a, (l.dropWhile p).head? = some a → p a = false := by
  induction l with
  | nil => intro a ha; simp [List.dropWhile] at ha
  | cons c t ih =>
    intro a ha
    by_cases hc : p c
    · rw [List.dropWhile_cons_of_pos hc] at ha
      exact ih a ha
    · rw [List.dropWhile_cons_of_neg hc] at ha
      simp at ha
      rw [← ha]
      exact Bool.of_not_eq_true hc

/-- `dropWhile` is the identity when the head already fails `p`. -/
theorem dropWhile_eq_self_of_head {α : Type} (p : α → Bool) (l : List α)
    (h : ∀ a, l.head? = some a → p a = false) : l.dropWhile p = l := by
  cases l with
  | nil => rfl
  | cons c t =>
    have hc : p c = false := h c rfl
    simp [List.dropWhile_cons, hc]

/-- `dropWhile p l` is a suffix of `l`. -/
theorem dropWhile_suffix_decomp {α : Type} (p : α → Bool) (l : List α) :
    ∃ t, t ++ l.dropWhile p = l := by
  induction l with
  | nil => exact ⟨[], rfl⟩
  | cons c t ih =>
    by_cases hc : p c
    · obtain ⟨u, hu⟩ := ih
      exact ⟨c :: u, by simp [List.dropWhile_cons, hc, hu]⟩
    · exact ⟨[], by simp [List.dropWhile_cons, hc]⟩

/-- A nonempty head survives list append. -/
theorem head?_append_left {α : Type} (l₁ l₂ : List α) (a : α)
    (h : l₁.head? = some a) : (l₁ ++ l₂).head? = some a := by
  cases l₁ with
  | nil => simp at h
  | cons c t => simpa using h

/-- No leading whitespace. -/
def noLeadSpace (l : List Char) : Prop :=
  ∀ a, l.head? = some a → pyIsSpace a = false

/-- Right-stripping preserves the absence of leading whitespace. -/
theorem noLeadSpace_rstrip (m : List Char) (hm : noLeadSpace m) :
    noLeadSpace ((m.reverse.dropWhile pyIsSpace).reverse) := by
  obtain ⟨t, ht⟩ := dropWhile_suffix_decomp pyIsSpace m.reverse
  intro a ha
  apply hm
  have hmeq : m = (m.reverse.dropWhile pyIsSpace).reverse ++ t.reverse := by
    have := congrArg List.reverse ht
    simpa using this.symm
  rw [hmeq]
  exact head?_append_left _ _ _ ha

/-- The left-then-right strip has no leading whitespace. -/
theorem pyStripL_noLead (cs : List Char) : noLeadSpace (pyStripL cs) :=
  noLeadSpace_rstrip (cs.dropWhile pyIsSpace) (dropWhile_head_not pyIsSpace cs)

/-- The reverse of the strip has no leading whitespace either (no trailing
whitespace in the strip itself). -/
theorem pyStripL_noTrail (cs : List Char) : noLeadSpace (pyStripL cs).reverse := by
  unfold pyStripL
  rw [List.reverse_reverse]
  exact dropWhile_head_not pyIsSpace _

/-- Stripping is idempotent on character lists. -/
theorem pyStripL_idem (cs : List Char) : pyStripL (pyStripL cs) = pyStripL cs := by
  have h1 : (pyStripL cs).dropWhile pyIsSpace = pyStripL cs :=
    dropWhile_eq_self_of_head _ _ (pyStripL_noLead cs)
  have h2 : (pyStripL cs).reverse.dropWhile pyIsSpace = (pyStripL cs).reverse :=
    dropWhile_eq_self_of_head _ _ (pyStripL_noTrail cs)
  show (((pyStripL cs).dropWhile pyIsSpace).reverse.dropWhile pyIsSpace).reverse = pyStripL cs
  rw [h1, h2, List.reverse_reverse]

/-- Python `str.strip()` is idempotent. -/
theorem pyStrip_idem (s : String) : pyStrip (pyStrip s) = pyStrip s :=
  congrArg String.mk (pyStripL_idem s.toList)

/-- `dropWhile p` erases the whole list exactly when every element
satisfies `p`. -/
theorem dropWhile_nil_iff {α : Type} (p : α → Bool) (l : List α) :
    l.dropWhile p = [] ↔ l.all p = true := by
  induction l with
  | nil => simp [List.dropWhile]
  | cons c t ih =>
    by_cases hc : p c
    · simp [List.dropWhile_cons, hc, ih]
    · simp [List.dropWhile_cons, hc]

/-- Every element of `takeWhile p` satisfies `p`. -/
theorem all_takeWhile {α : Type} (p : α → Bool) (l : List α) :
    (l.takeWhile p).all p = true := by
  induction l with
  | nil => simp [List.takeWhile]
  | cons c t ih =>
    by_cases hc : p c
    · simp [List.takeWhile_cons, hc, ih]
    · simp [List.takeWhile_cons, hc]

/-- The strip is empty exactly when the input is all whitespace. -/
theorem pyStripL_nil_iff (cs : List Char) :
    pyStripL cs = [] ↔ cs.all pyIsSpace = true := by
  unfold pyStripL
  rw [List.reverse_eq_nil_iff, dropWhile_nil_iff, List.all_reverse]
  rw [List.all_eq_true, List.all_eq_true]
  constructor
  · intro h x hx
    rw [← List.takeWhile_append_dropWhile (p := pyIsSpace) (l := cs)] at hx
    rcases List.mem_append.mp hx with h1 | h2
    · exact List.all_eq_true.mp (all_takeWhile pyIsSpace cs) x h1
    · exact h x h2
  · intro h x hx
    obtain ⟨t, ht⟩ := dropWhile_suffix_decomp pyIsSpace cs
    exact h x (by rw [← ht]; exact List.mem_append_right _ hx)

/-- String form: `strip` returns the empty string exactly when the input
consists solely of whitespace (including the empty input). -/
theorem pyStrip_empty_iff (s : String) :
    pyStrip s = "" ↔ s.toList.all pyIsSpace = true := by
  rw [← pyStripL_nil_iff]
  constructor
  · intro h
    have := congrArg String.toList h
    simpa [pyStrip] using this
  · intro h
    show String.mk (pyStripL s.toList) = ""
    rw [h]

/-! ## Helper lemmas about the missing-field lists -/

/-- Membership in the constructor's `missing_fields` list. -/
theorem mem_missingFields (h u pw : Option String) (s : String) :
    s ∈ missingFields h u pw ↔
      (isBlankOpt h = true ∧ s = "SMTP_HOST") ∨
        (isBlankOpt u = true ∧ s = "SMTP_USERNAME") ∨
          (isBlankOpt pw = true ∧ s = "SMTP_PASSWORD") := by
  unfold missingFields
  cases isBlankOpt h <;> cases isBlankOpt u <;> cases isBlankOpt pw <;> simp

/-- Membership in the health check's `missing_config` list. -/
theorem mem_healthMissing (cfg : EmailConfig) (s : String) :
    s ∈ healthMissing cfg ↔
      (isBlankOpt cfg.host = true ∧ s = "SMTP_HOST") ∨
        (isBlankOpt cfg.username = true ∧ s = "SMTP_USERNAME") ∨
          (isBlankOpt cfg.password = true ∧ s = "SMTP_PASSWORD") ∨
            (cfg.port ≤ 0 ∧ s = "SMTP_PORT") := by
  unfold healthMissing
  rcases Int.le_or_lt cfg.port 0 with hp | hp
  · cases isBlankOpt cfg.host <;> cases isBlankOpt cfg.username <;>
      cases isBlankOpt cfg.password <;> simp [if_pos hp, hp]
  · have hp' : ¬cfg.port ≤ 0 := Int.not_le.mpr hp
    cases isBlankOpt cfg.host <;> cases isBlankOpt cfg.username <;>
      cases isBlankOpt cfg.password <;> simp [if_neg hp', hp']

/-! ## Claim theorems -/

/-- Claim C1: for every validated SendRequest, when the configuration's
bypass flag is true, `send_email` returns success immediately and performs
zero network connections — no network resource is touched before the
bypass check. -/
theorem bypass_sends_nothing (cfg : EmailConfig) (r : EmailRequest) (w : SmtpWorld)
    (hskip : cfg.skip_sending = true) :
    (sendEmail cfg r w).outcome = .ok true ∧ (sendEmail cfg r w).net = [] := by
  simp [sendEmail, hskip]

/-- Witness for C1: a bypass configuration over a world whose connect
stage would fail still succeeds with an empty network trace. -/
theorem bypass_sends_nothing_witness :
    (sendEmail ⟨some "smtp.example.com", 587, some "user", some "pw", true⟩
        ⟨["a@b.com"], "s@b.com", "Hi", "Body", none⟩
        ⟨some "network down", none, none, none⟩).outcome = .ok true ∧
      (sendEmail ⟨some "smtp.example.com", 587, some "user", some "pw", true⟩
        ⟨["a@b.com"], "s@b.com", "Hi", "Body", none⟩
        ⟨some "network down", none, none, none⟩).net = [] :=
  bypass_sends_nothing _ _ _ rfl

/-- Counterexample to claim C2 as stated: configuration construction also
fails when `SMTP_PORT` does not parse as an integer (`int("abc")` raises
before the credential check), even though none of host, username,
password is missing or blank — so "fails if and only if a credential is
missing" is false. -/
theorem config_port_counterexample :
    mkEmailConfig (some "smtp.example.com") (some "abc") (some "user") (some "pw") none =
        .error "invalid literal for int() with base 10: abc" ∧
      missingFields (some "smtp.example.com") (some "user") (some "pw") = [] :=
  ⟨rfl, rfl⟩

/-- Claim C2 (amended): provided the port environment value parses as an
integer, configuration construction fails if and only if at least one of
host, username, password is absent or blank after trimming — regardless
of the bypass flag's value — and on failure the error names every missing
field among SMTP_HOST/SMTP_USERNAME/SMTP_PASSWORD, not just the first. -/
theorem config_requires_credentials (h u pw skip port : Option String) (p : Int)
    (hp : pyParseInt (port.getD "587") = some p) :
    ((∃ e, mkEmailConfig h port u pw skip = .error e) ↔ missingFields h u pw ≠ []) ∧
      (missingFields h u pw ≠ [] →
        mkEmailConfig h port u pw skip =
          .error ("Missing required SMTP configuration: " ++
            String.intercalate ", " (missingFields h u pw))) ∧
      ("SMTP_HOST" ∈ missingFields h u pw ↔ isBlankOpt h = true) ∧
      ("SMTP_USERNAME" ∈ missingFields h u pw ↔ isBlankOpt u = true) ∧
      ("SMTP_PASSWORD" ∈ missingFields h u pw ↔ isBlankOpt pw = true) := by
  refine ⟨?_, ?_, ?_, ?_, ?_⟩
  · by_cases hm : missingFields h u pw = [] <;> simp [mkEmailConfig, hp, hm]
  · intro hm
    simp [mkEmailConfig, hp, hm]
  · rw [mem_missingFields]
    simp
  · rw [mem_missingFields]
    simp
  · rw [mem_missingFields]
    simp

/-- Witness for the amended C2: with only the host unset (port left to its
default "587"), construction fails naming exactly SMTP_HOST. -/
theorem config_requires_credentials_witness :
    mkEmailConfig none none (some "user") (some "pw") none =
      .error "Missing required SMTP configuration: SMTP_HOST" := by
  have h :=
    (config_requires_credentials none (some "user") (some "pw") none none 587 (by rfl)).2.1
      (by decide)
  rw [h]
  rfl

/-- Claim C3: a subject or plain-body value that is empty or consists
solely of whitespace is rejected with the respective "cannot be empty"
message; any other value is stored stripped of leading and trailing
whitespace only, stripping is idempotent, and validating an
already-stripped value stores it unchanged. -/
theorem subject_body_trimming (v : String) :
    (v.toList.all pyIsSpace = true →
        validate_subject v = .error "Subject cannot be empty" ∧
          validate_plain_body v = .error "Plain body cannot be empty") ∧
      (v.toList.all pyIsSpace = false →
        validate_subject v = .ok (pyStrip v) ∧
          validate_plain_body v = .ok (pyStrip v) ∧
          pyStrip (pyStrip v) = pyStrip v ∧
          validate_subject (pyStrip v) = .ok (pyStrip v) ∧
          validate_plain_body (pyStrip v) = .ok (pyStrip v)) := by
  constructor
  · intro hall
    have hs : pyStrip v = "" := (pyStrip_empty_iff v).mpr hall
    exact ⟨by simp [validate_subject, hs], by simp [validate_plain_body, hs]⟩
  · intro hall
    have hv : v ≠ "" := by
      rintro rfl
      simp at hall
    have hs : pyStrip v ≠ "" := by
      intro hcon
      rw [(pyStrip_empty_iff v).mp hcon] at hall
      simp at hall
    have hidem := pyStrip_idem v
    refine ⟨by simp [validate_subject, hv, hs], by simp [validate_plain_body, hv, hs],
      hidem, ?_, ?_⟩
    · simp [validate_subject, hidem, hs]
    · simp [validate_plain_body, hidem, hs]

/-- Witness for C3: a padded value is stored stripped. -/
theorem subject_body_trimming_witness :
    validate_subject "  hi  " = .ok "hi" ∧ validate_plain_body "  hi  " = .ok "hi" := by
  have h := (subject_body_trimming "  hi  ").2 (by decide)
  refine ⟨?_, ?_⟩
  · rw [h.1]
    rfl
  · rw [h.2.1]
    rfl

/-- Claim C4: a payload whose `to` field is empty fails validation with an
error citing "At least one recipient is required" regardless of the other
fields, and every successfully constructed request has at least one
recipient. -/
theorem empty_recipients_rejected (v : List String) (fe s b : String) (hb : Option String) :
    (v = [] →
        mkEmailRequest v fe s b hb = .error (requestErrors v fe s b) ∧
          "At least one recipient is required" ∈ requestErrors v fe s b) ∧
      (∀ r, mkEmailRequest v fe s b hb = .ok r → 1 ≤ r.to_list.length) := by
  have herr : toFieldErrors [] = ["At least one recipient is required"] := rfl
  constructor
  · rintro rfl
    have hne : requestErrors [] fe s b ≠ [] := by
      unfold requestErrors
      rw [herr]
      simp
    constructor
    · simp [mkEmailRequest, hne]
    · unfold requestErrors
      rw [herr]
      simp
  · intro r hr
    simp only [mkEmailRequest] at hr
    by_cases he : requestErrors v fe s b = []
    · rw [if_pos he] at hr
      have hv : v ≠ [] := by
        rintro rfl
        unfold requestErrors at he
        rw [herr] at he
        simp at he
      injection hr with h2
      rw [← h2]
      exact List.length_pos.mpr hv
    · rw [if_neg he] at hr
      exact absurd hr (by simp)

/-- Witness for C4: the empty recipient list is rejected with the
recipient message among the collected errors. -/
theorem empty_recipients_rejected_witness :
    mkEmailRequest [] "s@b.com" "Hi" "Body" none =
        .error (requestErrors [] "s@b.com" "Hi" "Body") ∧
      "At least one recipient is required" ∈ requestErrors [] "s@b.com" "Hi" "Body" :=
  (empty_recipients_rejected [] "s@b.com" "Hi" "Body" none).1 rfl

/-- Counterexample to claim C5 as stated: with `html_body` present but
equal to the empty string, `if email_data.html_body:` is falsy, so no
HTML part is attached even though htmlBody is present — "an HTML part
exactly when htmlBody is present" fails. -/
theorem html_part_counterexample :
    ((⟨["a@b.com"], "s@b.com", "Hi", "Body", some ""⟩ : EmailRequest).html_body).isSome =
        true ∧
      (composeMessage ⟨["a@b.com"], "s@b.com", "Hi", "Body", some ""⟩).parts =
        [("plain", "Body")] :=
  ⟨rfl, rfl⟩

/-- Claim C5 (amended): when bypass is false the composed message has its
From header equal to the sender, its To header equal to the comma-joined
recipient list in order, its Subject header equal to the subject, always
a plain-text part, and an HTML part alongside the plain part exactly when
htmlBody is present and non-empty; the non-bypass all-stages-succeed
transmission sends exactly this composed message. -/
theorem compose_message_headers (cfg : EmailConfig) (r : EmailRequest) (w : SmtpWorld)
    (hskip : cfg.skip_sending = false) :
    (composeMessage r).from_header = r.from_email ∧
      (composeMessage r).to_header = String.intercalate ", " r.to_list ∧
      (composeMessage r).subject_header = r.subject ∧
      (r.html_body = none ∨ r.html_body = some "" →
        (composeMessage r).parts = [("plain", r.plain_body)]) ∧
      (∀ h, r.html_body = some h → h ≠ "" →
        (composeMessage r).parts = [("plain", r.plain_body), ("html", h)]) ∧
      (firstFailure w = none →
        (sendEmail cfg r w).net =
          [.connect cfg.host cfg.port, .starttls, .login cfg.username cfg.password,
            .sendMessage (composeMessage r)]) := by
  refine ⟨rfl, rfl, rfl, ?_, ?_, ?_⟩
  · rintro (hh | hh) <;> simp [composeMessage, hh]
  · intro h hh hne
    simp [composeMessage, hh, hne]
  · intro hff
    obtain ⟨wc, ws, wl, wsd⟩ := w
    cases wc with
    | some m => simp [firstFailure] at hff
    | none =>
      cases ws with
      | some m => simp [firstFailure] at hff
      | none =>
        cases wl with
        | some m => simp [firstFailure] at hff
        | none =>
          cases wsd with
          | some m => simp [firstFailure] at hff
          | none => simp [sendEmail, hskip]

/-- Witness for the amended C5: a fully successful non-bypass
transmission sends the composed message as its last network action. -/
theorem compose_message_headers_witness :
    (sendEmail ⟨some "smtp.example.com", 587, some "user", some "pw", false⟩
        ⟨["a@b.com"], "s@b.com", "Hi", "Body", some "<p>Hi</p>"⟩
        ⟨none, none, none, none⟩).net =
      [.connect (some "smtp.example.com") 587, .starttls, .login (some "user") (some "pw"),
        .sendMessage
          (composeMessage ⟨["a@b.com"], "s@b.com", "Hi", "Body", some "<p>Hi</p>"⟩)] :=
  (compose_message_headers ⟨some "smtp.example.com", 587, some "user", some "pw", false⟩
    ⟨["a@b.com"], "s@b.com", "Hi", "Body", some "<p>Hi</p>"⟩
    ⟨none, none, none, none⟩ rfl).2.2.2.2.2 rfl

/-- Claim C6: the health query yields exactly one of three outcomes —
healthy and not configured when bypass is true irrespective of the other
settings; unhealthy listing by name every blank credential and the port
when it is not positive, when bypass is false and something is missing;
healthy and configured when bypass is false and everything is present
with a positive port. -/
theorem health_query_trichotomy (cfg : EmailConfig) :
    (cfg.skip_sending = true →
        validate_configuration cfg =
          ⟨"healthy", "Email sending is disabled (development mode)", false, none, none,
            none⟩) ∧
      (cfg.skip_sending = false → healthMissing cfg ≠ [] →
        validate_configuration cfg =
          ⟨"unhealthy",
            "Missing or invalid SMTP configuration: " ++
              String.intercalate ", " (healthMissing cfg),
            false, some (healthMissing cfg), none, none⟩) ∧
      (cfg.skip_sending = false → isBlankOpt cfg.host = false →
        isBlankOpt cfg.username = false → isBlankOpt cfg.password = false →
        0 < cfg.port →
        validate_configuration cfg =
          ⟨"healthy", "SMTP configuration is valid", true, none, some cfg.host,
            some cfg.port⟩) ∧
      ("SMTP_HOST" ∈ healthMissing cfg ↔ isBlankOpt cfg.host = true) ∧
      ("SMTP_USERNAME" ∈ healthMissing cfg ↔ isBlankOpt cfg.username = true) ∧
      ("SMTP_PASSWORD" ∈ healthMissing cfg ↔ isBlankOpt cfg.password = true) ∧
      ("SMTP_PORT" ∈ healthMissing cfg ↔ cfg.port ≤ 0) := by
  refine ⟨?_, ?_, ?_, ?_, ?_, ?_, ?_⟩
  · intro hb
    simp [validate_configuration, hb]
  · intro hb hm
    simp [validate_configuration, hb, hm]
  · intro hb h1 h2 h3 hp
    have hm : healthMissing cfg = [] := by
      unfold healthMissing
      rw [h1, h2, h3]
      simp [Int.not_le.mpr hp]
    simp [validate_configuration, hb, hm]
  · rw [mem_healthMissing]
    simp
  · rw [mem_healthMissing]
    simp
  · rw [mem_healthMissing]
    simp
  · rw [mem_healthMissing]
    simp

/-- Witness for C6: with bypass on, the health query reports healthy and
not configured even with every credential unset and a negative port. -/
theorem health_query_trichotomy_witness :
    validate_configuration ⟨none, -1, none, none, true⟩ =
      ⟨"healthy", "Email sending is disabled (development mode)", false, none, none, none⟩ :=
  (health_query_trichotomy ⟨none, -1, none, none, true⟩).1 rfl

/-- Claim C10: the health query is total — for every configuration state
it returns a result whose status key is "healthy" or "unhealthy". -/
theorem health_query_total (cfg : EmailConfig) :
    (validate_configuration cfg).status = "healthy" ∨
      (validate_configuration cfg).status = "unhealthy" := by
  unfold validate_configuration
  by_cases hb : cfg.skip_sending
  · left
    simp [hb]
  · by_cases hm : healthMissing cfg = []
    · left
      simp [hb, hm]
    · right
      simp [hb, hm]

/-! ## Helper lemmas about address-shape validation -/

/-- An "@"-free local part plus an "@"-free domain give exactly one "@". -/
theorem count_at_split (lp dom : List Char) (h1 : '@' ∉ lp) (h2 : '@' ∉ dom) :
    (lp ++ '@' :: dom).count '@' = 1 := by
  rw [List.count_append, List.count_cons_self, List.count_eq_zero.mpr h1,
    List.count_eq_zero.mpr h2]

/-- `takeWhile (· != '@')` recovers the local part. -/
theorem takeWhile_at_split (lp dom : List Char) (h1 : '@' ∉ lp) :
    ((lp ++ '@' :: dom).takeWhile fun c => c != '@') = lp := by
  induction lp with
  | nil => simp [List.takeWhile_cons]
  | cons c t ih =>
    have hc : c ≠ '@' := fun hcon => h1 (hcon ▸ List.mem_cons_self c t)
    have ht : '@' ∉ t := fun hcon => h1 (List.mem_cons_of_mem c hcon)
    simp [List.takeWhile_cons, hc, ih ht]

/-- `dropWhile (· != '@')` recovers the "@" and the domain. -/
theorem dropWhile_at_split (lp dom : List Char) (h1 : '@' ∉ lp) :
    ((lp ++ '@' :: dom).dropWhile fun c => c != '@') = '@' :: dom := by
  induction lp with
  | nil => simp [List.dropWhile_cons]
  | cons c t ih =>
    have hc : c ≠ '@' := fun hcon => h1 (hcon ▸ List.mem_cons_self c t)
    have ht : '@' ∉ t := fun hcon => h1 (List.mem_cons_of_mem c hcon)
    simp [List.dropWhile_cons, hc, ih ht]

/-- Shape of the validator on a split address. -/
theorem emailValidL_split (lp dom : List Char) (h1 : '@' ∉ lp) (h2 : '@' ∉ dom) :
    emailValidL (lp ++ '@' :: dom) = (!lp.isEmpty && dom.contains '.') := by
  unfold emailValidL
  rw [takeWhile_at_split lp dom h1, dropWhile_at_split lp dom h1,
    count_at_split lp dom h1 h2]
  simp

/-- A character list with no "@" at all is not a valid address. -/
theorem emailValidL_no_at (cs : List Char) (h : '@' ∉ cs) : emailValidL cs = false := by
  unfold emailValidL
  rw [List.count_eq_zero.mpr h]
  simp

/-- A payload containing an invalid recipient address cannot construct a
request. -/
theorem mk_fails_of_bad_recipient (v : List String) (fe s b : String) (hb : Option String)
    (a : String) (ha : a ∈ v) (hav : emailValid a = false) :
    ∀ r, mkEmailRequest v fe s b hb ≠ .ok r := by
  intro r hr
  have hitem : "value is not a valid email address" ∈
      (v.filterMap fun x =>
        if emailValid x then none else some "value is not a valid email address") :=
    List.mem_filterMap.mpr ⟨a, ha, by simp [hav]⟩
  have hne : (v.filterMap fun x =>
      if emailValid x then none else some "value is not a valid email address") ≠ [] :=
    List.ne_nil_of_mem hitem
  have htf : toFieldErrors v ≠ [] := by
    unfold toFieldErrors
    rw [if_neg hne]
    exact hne
  have hreq : requestErrors v fe s b ≠ [] := by
    unfold requestErrors
    intro hcon
    exact htf
      (List.append_eq_nil.mp (List.append_eq_nil.mp (List.append_eq_nil.mp hcon).1).1).1
  simp only [mkEmailRequest] at hr
  rw [if_neg hreq] at hr
  exact absurd hr (by simp)

/-- A payload with an invalid sender address cannot construct a request. -/
theorem mk_fails_of_bad_sender (v : List String) (fe s b : String) (hb : Option String)
    (hfe : emailValid fe = false) :
    ∀ r, mkEmailRequest v fe s b hb ≠ .ok r := by
  intro r hr
  have hff : fromFieldErrors fe = ["value is not a valid email address"] := by
    unfold fromFieldErrors
    rw [hfe]
    simp
  have hreq : requestErrors v fe s b ≠ [] := by
    unfold requestErrors
    intro hcon
    have h2 := (List.append_eq_nil.mp (List.append_eq_nil.mp hcon).1).1
    have h3 := (List.append_eq_nil.mp h2).2
    rw [hff] at h3
    exact absurd h3 (by simp)
  simp only [mkEmailRequest] at hr
  rw [if_neg hreq] at hr
  exact absurd hr (by simp)

/-- Claim C7 (spec-modelled address check): an address missing an "@" or
whose domain contains no dot is rejected — and rejection of any entry of
`to` or of `from_email` blocks request construction — while every address
of the shape local@domain.tld (an "@"-free nonempty local part, a domain
with a dot) is accepted. -/
theorem email_shape_validation (s : String) (lp dom d t : List Char) :
    ('@' ∉ s.toList → emailValid s = false) ∧
      ('@' ∉ lp → '@' ∉ dom → '.' ∉ dom → emailValidL (lp ++ '@' :: dom) = false) ∧
      (lp ≠ [] → '@' ∉ lp → '@' ∉ d → '@' ∉ t →
        emailValidL (lp ++ '@' :: (d ++ '.' :: t)) = true) ∧
      (∀ v fe subj body hb a, a ∈ v → emailValid a = false →
        ∀ r, mkEmailRequest v fe subj body hb ≠ .ok r) ∧
      (∀ v fe subj body hb, emailValid fe = false →
        ∀ r, mkEmailRequest v fe subj body hb ≠ .ok r) := by
  refine ⟨?_, ?_, ?_, ?_, ?_⟩
  · intro h
    exact emailValidL_no_at s.toList h
  · intro h1 h2 h3
    rw [emailValidL_split lp dom h1 h2]
    simp [h3]
  · intro hne h1 hd ht
    have h2 : '@' ∉ d ++ '.' :: t := by
      intro hcon
      rcases List.mem_append.mp hcon with hc | hc
      · exact hd hc
      · rcases List.mem_cons.mp hc with hc' | hc'
        · exact absurd hc' (by decide)
        · exact ht hc'
    rw [emailValidL_split lp (d ++ '.' :: t) h1 h2]
    have hdot : '.' ∈ d ++ '.' :: t := List.mem_append_right d (List.mem_cons_self _ _)
    simp [hne, hdot]
  · intro v fe subj body hb a ha hav
    exact mk_fails_of_bad_recipient v fe subj body hb a ha hav
  · intro v fe subj body hb hfe
    exact mk_fails_of_bad_sender v fe subj body hb hfe

/-- Witness for C7: `a@b.com` in split form is accepted. -/
theorem email_shape_validation_witness :
    emailValidL (['a'] ++ '@' :: (['b'] ++ '.' :: ['c', 'o', 'm'])) = true :=
  (email_shape_validation "x" ['a'] [] ['b'] ['c', 'o', 'm']).2.2.1 (by decide) (by decide)
    (by decide) (by decide)

/-- Claim C8: when bypass is false and a network stage fails, `send_email`
logs the failure and re-raises the caught exception unmodified, each
stage is attempted at most once (no retry), and the caller-visible HTTP
outcome is 500 with the generic "Internal server error" body, never the
raw exception detail. -/
theorem transmission_failure_handling (cfg : EmailConfig) (w : SmtpWorld)
    (v : List String) (fe s b : String) (hb : Option String) (r : EmailRequest) (m : String)
    (hskip : cfg.skip_sending = false) (hfail : firstFailure w = some m)
    (hreq : mkEmailRequest v fe s b hb = .ok r) :
    (sendEmail cfg r w).outcome = .error (.smtpError m) ∧
      LogEvent.sendFailed ("Failed to send email: " ++ m) ∈ (sendEmail cfg r w).logs ∧
      (∀ e, (sendEmail cfg r w).net.count e ≤ 1) ∧
      send_email_endpoint cfg w v fe s b hb = ⟨500, .detail "Internal server error"⟩ := by
  obtain ⟨wc, ws, wl, wsd⟩ := w
  cases wc with
  | some mc =>
    have hm : mc = m := by simpa [firstFailure] using hfail
    rw [← hm]
    refine ⟨by simp [sendEmail, hskip], by simp [sendEmail, hskip], ?_, ?_⟩
    · intro e
      have hnd : (sendEmail cfg r ⟨some mc, ws, wl, wsd⟩).net.Nodup := by
        simp [sendEmail, hskip]
      exact List.nodup_iff_count_le_one.mp hnd e
    · simp [send_email_endpoint, hreq, sendEmail, hskip]
  | none =>
    cases ws with
    | some ms =>
      have hm : ms = m := by simpa [firstFailure] using hfail
      rw [← hm]
      refine ⟨by simp [sendEmail, hskip], by simp [sendEmail, hskip], ?_, ?_⟩
      · intro e
        have hnd : (sendEmail cfg r ⟨none, some ms, wl, wsd⟩).net.Nodup := by
          simp [sendEmail, hskip]
        exact List.nodup_iff_count_le_one.mp hnd e
      · simp [send_email_endpoint, hreq, sendEmail, hskip]
    | none =>
      cases wl with
      | some ml =>
        have hm : ml = m := by simpa [firstFailure] using hfail
        rw [← hm]
        refine ⟨by simp [sendEmail, hskip], by simp [sendEmail, hskip], ?_, ?_⟩
        · intro e
          have hnd : (sendEmail cfg r ⟨none, none, some ml, wsd⟩).net.Nodup := by
            simp [sendEmail, hskip]
          exact List.nodup_iff_count_le_one.mp hnd e
        · simp [send_email_endpoint, hreq, sendEmail, hskip]
      | none =>
        cases wsd with
        | some md =>
          have hm : md = m := by simpa [firstFailure] using hfail
          rw [← hm]
          refine ⟨by simp [sendEmail, hskip], by simp [sendEmail, hskip], ?_, ?_⟩
          · intro e
            have hnd : (sendEmail cfg r ⟨none, none, none, some md⟩).net.Nodup := by
              simp [sendEmail, hskip]
            exact List.nodup_iff_count_le_one.mp hnd e
          · simp [send_email_endpoint, hreq, sendEmail, hskip]
        | none => simp [firstFailure] at hfail

/-- Witness for C8: a failing connect stage surfaces as a 500 with the
generic body. -/
theorem transmission_failure_handling_witness :
    send_email_endpoint ⟨some "smtp.example.com", 587, some "user", some "pw", false⟩
        ⟨some "connection refused", none, none, none⟩
        ["a@b.com"] "s@b.com" "Hi" "Body" none =
      ⟨500, .detail "Internal server error"⟩ :=
  (transmission_failure_handling
    ⟨some "smtp.example.com", 587, some "user", some "pw", false⟩
    ⟨some "connection refused", none, none, none⟩
    ["a@b.com"] "s@b.com" "Hi" "Body" none
    ⟨["a@b.com"], "s@b.com", "Hi", "Body", none⟩
    "connection refused" rfl rfl rfl).2.2.2

/-- Claim C9: a payload that validates and whose transmission attempt
succeeds (the bypass path included) yields status 200 with exactly the
success body: message "Email sent successfully", status "success". -/
theorem success_response (cfg : EmailConfig) (w : SmtpWorld) (v : List String)
    (fe s b : String) (hb : Option String) (r : EmailRequest) (x : Bool)
    (hreq : mkEmailRequest v fe s b hb = .ok r)
    (hsend : (sendEmail cfg r w).outcome = .ok x) :
    send_email_endpoint cfg w v fe s b hb =
      ⟨200, .jsonObject [("message", "Email sent successfully"), ("status", "success")]⟩ := by
  simp [send_email_endpoint, hreq, hsend]

/-- Witness for C9: a valid payload under a bypass configuration returns
the 200 success body. -/
theorem success_response_witness :
    send_email_endpoint ⟨some "smtp.example.com", 587, some "user", some "pw", true⟩
        ⟨none, none, none, none⟩ ["a@b.com"] "s@b.com" "Hi" "Body" none =
      ⟨200, .jsonObject [("message", "Email sent successfully"), ("status", "success")]⟩ :=
  success_response ⟨some "smtp.example.com", 587, some "user", some "pw", true⟩
    ⟨none, none, none, none⟩ ["a@b.com"] "s@b.com" "Hi" "Body" none
    ⟨["a@b.com"], "s@b.com", "Hi", "Body", none⟩ true rfl rfl
